import Mathlib

/-!
Verification of the VCD (Value Change Dump) parser driver.

This file gives a shallow embedding of the parser session driver
(`VCDFileParser`, files `VCDFileParser.hpp` / `VCDFileParser.cpp`) and
proves properties of its lifecycle: resource acquisition and release,
error handling, state isolation between sessions, and sequential reuse.

The bison-generated grammar engine, the flex-generated scanner and the
`VCDTypes.hpp` definitions are not part of the embedded sources; where a
property depends on them they are modelled from the specification, and
each such definition carries a doc comment saying so.
-/

namespace VCD

/-- Modelled from the spec: `VCDTypes.hpp` (which defines `VCDTime`) is not
among the embedded sources.  The spec treats simulation time as a numeric
timestamp with a bounded, sign-symmetric range of representable values
(the magnitude bound below); `VCDTime` values are modelled as integers and
`vcdTimeMax` is the largest representable magnitude, so the representable
values are exactly those `t` with `-vcdTimeMax ≤ t ≤ vcdTimeMax`. -/
abbrev VCDTime := Int

/-- Modelled from the spec: the largest representable magnitude of a
`VCDTime` value (`std::numeric_limits<VCDTime>::max()`). -/
def vcdTimeMax : Int := 2 ^ 63

/-- A `VCDTime` value is representable when its magnitude is within bound. -/
def VCDTime.representable (t : VCDTime) : Prop :=
  -vcdTimeMax ≤ t ∧ t ≤ vcdTimeMax

instance (t : VCDTime) : Decidable t.representable := by
  unfold VCDTime.representable
  infer_instance

/-- Scope kinds; only the synthetic root kind is used by the driver itself. -/
inductive VCDScopeType
  | vcd_scope_root
  | vcd_scope_module
deriving Repr, DecidableEq

/-- A scope node as the driver builds it: a name and a kind tag. -/
structure VCDScope where
  name : String
  type : VCDScopeType
deriving Repr, DecidableEq

/-- The trace object (`VCDFile`): the root scope pointer, the scope list
filled by `add_scope`, and the payload built by the grammar's semantic
actions (signals and timesteps), modelled as one opaque-to-the-driver
string since the driver never inspects it. -/
structure VCDFile where
  root_scope : Option VCDScope
  scopes : List VCDScope
  content : String
deriving Repr, DecidableEq

/-- Source-location tracker (`VCDParser::location`), line and column. -/
structure Location where
  line : Nat
  column : Nat
deriving Repr, DecidableEq

/-- The default-constructed location. -/
def Location.initial : Location := ⟨1, 1⟩

/-- An input handle: either the process's standard input or a named file
opened with `fopen`. -/
inductive FileHandle
  | stdin
  | named (path : String)
deriving Repr, DecidableEq

/-- The reentrant scanner state (`yyscan_t`) as the driver configures it:
`yyset_debug`, `yyset_extra(this)`, `yyset_in`. -/
structure ScannerState where
  debug : Bool
  extraIsDriver : Bool
  input : Option FileHandle
deriving Repr, DecidableEq

/-- The parser session object.  Every field is an instance member of
`VCDFileParser` in the header: no piece of parsing state is global.
The trace pointer `fh` is a heap identifier (see `Heap`). -/
structure VCDFileParser where
  filepath : String
  trace_scanning : Bool
  trace_parsing : Bool
  start_time : VCDTime
  end_time : VCDTime
  fh : Option Nat
  scopes : List VCDScope
  current_time : VCDTime
  loc : Location
  scanner : Option ScannerState
  input_file : Option FileHandle
deriving Repr, DecidableEq

/-- The `VCDFileParser()` constructor: extreme time window, zero current
time, both trace toggles off, scanner and input handle null.  The `fh`
pointer is left uninitialized by the constructor; it is modelled as none. -/
def VCDFileParser.init : VCDFileParser :=
  { filepath := ""
  , trace_scanning := false
  , trace_parsing := false
  , start_time := -vcdTimeMax
  , end_time := vcdTimeMax
  , fh := none
  , scopes := []
  , current_time := 0
  , loc := Location.initial
  , scanner := none
  , input_file := none }

/-- Modelled from the spec: the retention window.  A timestamp is eligible
for exclusion when it lies outside `[start_time, end_time]` ("values
outside the bounds are eligible for exclusion"); the consuming code lives
in the grammar actions, which are not among the embedded sources. -/
def eligibleForExclusion (p : VCDFileParser) (t : VCDTime) : Bool :=
  decide (t < p.start_time) || decide (p.end_time < t)

/-- Observable effects of a run, in order of occurrence. -/
inductive Event
  | lexInit
  | lexDestroy
  | fclose (h : FileHandle)
  | diag (msg : String)
deriving Repr, DecidableEq

/-- A heap of allocated trace objects: the next fresh identifier, the live
allocations, and the identifiers already freed. -/
structure Heap where
  next : Nat
  live : List (Nat × VCDFile)
  freed : List Nat
deriving Repr, DecidableEq

/-- The empty heap. -/
def Heap.empty : Heap := ⟨0, [], []⟩

/-- Allocate a fresh trace object, returning its identifier. -/
def Heap.alloc (h : Heap) (f : VCDFile) : Nat × Heap :=
  (h.next, ⟨h.next + 1, (h.next, f) :: h.live, h.freed⟩)

/-- Read a live allocation. -/
def Heap.get (h : Heap) (id : Nat) : Option VCDFile :=
  (h.live.find? (fun q => q.1 = id)).map Prod.snd

/-- Overwrite a live allocation. -/
def Heap.set (h : Heap) (id : Nat) (f : VCDFile) : Heap :=
  ⟨h.next, h.live.map (fun q => if q.1 = id then (id, f) else q), h.freed⟩

/-- Free an allocation (`delete`). -/
def Heap.free (h : Heap) (id : Nat) : Heap :=
  ⟨h.next, h.live.filter (fun q => q.1 ≠ id), id :: h.freed⟩

/-- The environment the driver reads: which paths `fopen` can open, each
file's text, and the text available on standard input. -/
structure FileSystem where
  openable : String → Bool
  text : String → String
  stdinText : String

/-- `fopen(path, "r")`: a handle when the path is openable, else null. -/
def fopen (fs : FileSystem) (path : String) : Option FileHandle :=
  if fs.openable path then some (FileHandle.named path) else none

/-- Read the whole input reachable through a handle. -/
def readSource (fs : FileSystem) : FileHandle → String
  | FileHandle.stdin => fs.stdinText
  | FileHandle.named p => fs.text p

/-- The `strerror(errno)` text attached to a failed `fopen`; modelled as a
fixed message. -/
def strerrorText : String := "No such file or directory"

/-- The diagnostic emitted by `scan_begin` when `fopen` fails. -/
def cannotOpenMsg (path : String) : String :=
  "Cannot open " ++ path ++ ": " ++ strerrorText

/-- Modelled from the spec: the result of one run of the bison-generated
grammar engine (`VCDParser.ypp` output is not among the embedded sources):
an exit code (`0` = accept), the payload its semantic actions wrote into
the in-progress trace, the final value of the session's time cursor, and
the diagnostics it emitted.  Per the spec the engine is a function of the
token stream alone — the debug toggles affect only diagnostic verbosity,
never results — so it is modelled as a function of the input text only. -/
structure GrammarResult where
  code : Int
  content : String
  finalTime : VCDTime
  diags : List String
deriving Repr, DecidableEq

/-- Modelled from the spec: a grammar engine maps input text to a result. -/
abbrev GrammarEngine := String → GrammarResult

/-- Outcome of `scan_begin`: either the updated session, or process
termination (`exit(EXIT_FAILURE)`) when the named file cannot be opened. -/
inductive ScanBeginOut
  | ok (p : VCDFileParser) (evs : List Event)
  | exited (code : Nat) (p : VCDFileParser) (evs : List Event)
deriving Repr, DecidableEq

/-- The session state a `ScanBeginOut` carries. -/
def ScanBeginOut.state : ScanBeginOut → VCDFileParser
  | ScanBeginOut.ok p _ => p
  | ScanBeginOut.exited _ p _ => p

/-- The events a `ScanBeginOut` carries. -/
def ScanBeginOut.evs : ScanBeginOut → List Event
  | ScanBeginOut.ok _ e => e
  | ScanBeginOut.exited _ _ e => e

/-- `VCDFileParser::scan_begin`: initialize the reentrant scanner
(`yylex_init`), point its extra data at this session (`yyset_extra`), set
its debug flag from `trace_scanning` (`yyset_debug`), then pick the input
source: standard input when `filepath` is empty or `"-"`, otherwise
`fopen(filepath)`; on `fopen` failure report through `error` and call
`exit(EXIT_FAILURE)`.  On success hand the handle to the scanner
(`yyset_in`). -/
def scan_begin (fs : FileSystem) (p : VCDFileParser) : ScanBeginOut :=
  let sc : ScannerState :=
    { debug := p.trace_scanning, extraIsDriver := true, input := none }
  if p.filepath = "" ∨ p.filepath = "-" then
    ScanBeginOut.ok
      { p with input_file := some FileHandle.stdin
             , scanner := some { sc with input := some FileHandle.stdin } }
      [Event.lexInit]
  else
    match fopen fs p.filepath with
    | some h =>
        ScanBeginOut.ok
          { p with input_file := some h
                 , scanner := some { sc with input := some h } }
          [Event.lexInit]
    | none =>
        ScanBeginOut.exited 1
          { p with input_file := none, scanner := some sc }
          [Event.lexInit, Event.diag (cannotOpenMsg p.filepath)]

/-- `VCDFileParser::scan_end`: close the input handle unless it is null or
standard input, null the `input_file` member, and destroy the scanner when
one is present (`yylex_destroy`), nulling it.  Returns the updated session
and the events emitted. -/
def scan_end (p : VCDFileParser) : VCDFileParser × List Event :=
  let closeEvs : List Event :=
    match p.input_file with
    | some h => if h = FileHandle.stdin then [] else [Event.fclose h]
    | none => []
  match p.scanner with
  | some _ =>
      ({ p with input_file := none, scanner := none },
       closeEvs ++ [Event.lexDestroy])
  | none =>
      ({ p with input_file := none }, closeEvs)

/-- One session's run state: the session object, the trace heap, the event
log, whether `exit` has been called (and with what code), the value of the
local `int result` from the grammar engine, and the value `parse_file`
last returned — `none` while a call is in progress, `some none` for a
null return, `some (some id)` for a returned trace. -/
structure SessionRun where
  parser : VCDFileParser
  heap : Heap
  events : List Event
  exitCode : Option Nat
  lastCode : Option Int
  retval : Option (Option Nat)
deriving Repr, DecidableEq

/-- A fresh run state around a freshly constructed session. -/
def SessionRun.fresh : SessionRun :=
  ⟨VCDFileParser.init, Heap.empty, [], none, none, none⟩

/-- Entry of `parse_file`: store the path into the `filepath` member and
reset the `current_time` cursor to zero.  No step runs once the process
has exited. -/
def callEntry (path : String) (r : SessionRun) : SessionRun :=
  if r.exitCode.isSome then r else
  { r with parser := { r.parser with filepath := path, current_time := 0 }
         , lastCode := none
         , retval := none }

/-- The `scan_begin()` call inside `parse_file`, lifted to the run state:
on `fopen` failure the process exits with `EXIT_FAILURE`. -/
def scanBeginStep (fs : FileSystem) (r : SessionRun) : SessionRun :=
  if r.exitCode.isSome then r else
  match scan_begin fs r.parser with
  | ScanBeginOut.ok p evs =>
      { r with parser := p, events := r.events ++ evs }
  | ScanBeginOut.exited c p evs =>
      { r with parser := p, events := r.events ++ evs, exitCode := some c }

/-- The trace-construction block of `parse_file`: allocate a new
`VCDFile`, create a root scope named `"$root"`, store it in `root_scope`
and push it; then create a second root scope with an empty name, overwrite
`root_scope` with it and push it too; finally `add_scope` the stack top
into the trace.  (The first scope stays on the stack but is no longer
reachable from the trace.) -/
def buildTrace (r : SessionRun) : SessionRun :=
  if r.exitCode.isSome then r else
  let scope1 : VCDScope := { name := "$root", type := VCDScopeType.vcd_scope_root }
  let scope2 : VCDScope := { name := "", type := VCDScopeType.vcd_scope_root }
  let tr0 : VCDFile := { root_scope := some scope1, scopes := [], content := "" }
  let (id, h1) := r.heap.alloc tr0
  let p1 := { r.parser with fh := some id, scopes := scope1 :: r.parser.scopes }
  let tr1 : VCDFile := { tr0 with root_scope := some scope2 }
  let p2 := { p1 with scopes := scope2 :: p1.scopes }
  let tr2 : VCDFile := { tr1 with scopes := tr1.scopes ++ [scope2] }
  { r with parser := p2, heap := h1.set id tr2 }

/-- Running the grammar engine (`parser.parse()`): read the input through
the acquired handle, let the semantic actions fill the trace's payload and
move the time cursor, log the engine's diagnostics, and record the engine
exit code in the local `result`. -/
def runGrammar (g : GrammarEngine) (fs : FileSystem) (r : SessionRun) : SessionRun :=
  if r.exitCode.isSome then r else
  match r.parser.fh, r.parser.input_file with
  | some id, some h =>
      let res := g (readSource fs h)
      let heap2 :=
        match r.heap.get id with
        | some tr => r.heap.set id { tr with content := res.content }
        | none => r.heap
      { r with heap := heap2
             , parser := { r.parser with current_time := res.finalTime }
             , events := r.events ++ res.diags.map Event.diag
             , lastCode := some res.code }
  | _, _ => r

/-- The tail of `parse_file`: pop the scope stack once, call `scan_end()`,
then branch on the grammar result — on `0` null the session's `fh` member
and return the trace pointer; otherwise `delete` the trace and return
null (the `fh` member is left pointing at the freed allocation). -/
def finishParse (r : SessionRun) : SessionRun :=
  if r.exitCode.isSome then r else
  let p0 := { r.parser with scopes := r.parser.scopes.tail }
  let (p1, evs) := scan_end p0
  let r1 := { r with parser := p1, events := r.events ++ evs }
  match r1.lastCode, r1.parser.fh with
  | some c, some id =>
      if c = 0 then
        { r1 with parser := { r1.parser with fh := none }, retval := some (some id) }
      else
        { r1 with heap := r1.heap.free id, retval := some none }
  | _, _ => { r1 with retval := some none }

/-- Apply a list of state transformers in order. -/
def applySteps (fs : List (SessionRun → SessionRun)) (r : SessionRun) : SessionRun :=
  fs.foldl (fun a f => f a) r

/-- The five sequential blocks of `VCDFileParser::parse_file`. -/
def parseSteps (g : GrammarEngine) (fs : FileSystem) (path : String) :
    List (SessionRun → SessionRun) :=
  [callEntry path, scanBeginStep fs, buildTrace, runGrammar g fs, finishParse]

/-- `VCDFileParser::parse_file`, as the sequence of its five blocks. -/
def parse_file (g : GrammarEngine) (fs : FileSystem) (r : SessionRun)
    (path : String) : SessionRun :=
  applySteps (parseSteps g fs path) r

/-- The text `parse_file` feeds to the grammar engine for a given path:
standard input's text when the path selects standard input, otherwise the
named file's text. -/
def sourceOf (fs : FileSystem) (path : String) : String :=
  if path = "" ∨ path = "-" then fs.stdinText else fs.text path

/-- An interleaved execution of several threads, one session per thread:
a schedule names, step by step, which thread performs its next pending
step on its own component of the world.  A scheduled thread with no steps
left simply stutters.  Each step touches only that thread's component —
there is no shared mutable state to touch, mirroring the header where all
parsing state is instance members. -/
def runWorld {S : Type} {n : Nat} :
    List (Fin n) → (Fin n → List (S → S)) → (Fin n → S) → (Fin n → S)
  | [], _, w => w
  | i :: sch, progs, w =>
      match progs i with
      | [] => runWorld sch progs w
      | f :: rest =>
          runWorld sch (Function.update progs i rest)
            (Function.update w i (f (w i)))

/-- Overwrite the two debug toggles of a session. -/
def withToggles (p : VCDFileParser) (a b : Bool) : VCDFileParser :=
  { p with trace_scanning := a, trace_parsing := b }

/-- Erase the scanner's debug flag (set by `yyset_debug`). -/
def scannerErase (s : ScannerState) : ScannerState := { s with debug := false }

/-- Erase everything in a session the debug toggles can influence: the
toggles themselves and the scanner's debug flag. -/
def parserErase (p : VCDFileParser) : VCDFileParser :=
  { p with trace_scanning := false
         , trace_parsing := false
         , scanner := p.scanner.map scannerErase }

/-- Erase the toggle-influenced parts of a run state. -/
def runErase (r : SessionRun) : SessionRun :=
  { r with parser := parserErase r.parser }

/-- A grammar engine that accepts every input, storing the input text as
the trace payload. -/
def grammarAccepts : GrammarEngine := fun s => ⟨0, s, 0, []⟩

/-- A grammar engine that rejects every input with a diagnostic. -/
def grammarRejects : GrammarEngine := fun _ => ⟨1, "", 0, ["syntax error"]⟩

/-- A file system on which no path can be opened. -/
def fsNoFiles : FileSystem := ⟨fun _ => false, fun _ => "", ""⟩

/-- A file system on which every path opens, each file's text being its
own path. -/
def fsAllFiles : FileSystem := ⟨fun _ => true, fun p => p, "stdin-text"⟩

/-- C1: for a path naming a file that cannot be opened, `parse_file` does
report the failure through the diagnostic sink, but it then terminates the
whole process via `exit(EXIT_FAILURE)` inside `scan_begin`: the call never
returns a failure result to the caller, contradicting the claim that the
failure is fatal for that parse attempt only. -/
theorem parse_file_unopenable_calls_exit :
    (parse_file grammarAccepts fsNoFiles SessionRun.fresh "missing.vcd").exitCode
        = some 1 ∧
    (parse_file grammarAccepts fsNoFiles SessionRun.fresh "missing.vcd").retval
        = none ∧
    Event.diag (cannotOpenMsg "missing.vcd")
        ∈ (parse_file grammarAccepts fsNoFiles SessionRun.fresh "missing.vcd").events := by
  refine ⟨rfl, rfl, ?_⟩
  decide

/-- C2: `parse_file` does not clear the scope stack and pushes two root
scopes (a `$root`-named one and an empty-named one) instead of one, but
pops only once on return.  After one successful parse on a fresh session
the stack still holds one leftover `$root` scope, and after a second call
it holds two: the session does not return to a clean transient state. -/
theorem parse_file_scope_stack_residue :
    (parse_file grammarAccepts fsAllFiles SessionRun.fresh "a.vcd").retval
        = some (some 0) ∧
    (parse_file grammarAccepts fsAllFiles SessionRun.fresh "a.vcd").parser.scopes
        = [⟨"$root", VCDScopeType.vcd_scope_root⟩] ∧
    (parse_file grammarAccepts fsAllFiles
        (parse_file grammarAccepts fsAllFiles SessionRun.fresh "a.vcd")
        "b.vcd").parser.scopes
        = [⟨"$root", VCDScopeType.vcd_scope_root⟩,
           ⟨"$root", VCDScopeType.vcd_scope_root⟩] := by
  refine ⟨rfl, rfl, rfl⟩

/-- C7: `scan_begin` adopts standard input as the input source exactly
when the session's `filepath` is the empty string or `"-"`; for any other
path it opens that named file with `fopen` (obtaining a handle when the
file is openable and null otherwise). -/
theorem scan_begin_input_selection (fs : FileSystem) (p : VCDFileParser) :
    (scan_begin fs p).state.input_file =
      (if p.filepath = "" ∨ p.filepath = "-" then some FileHandle.stdin
       else fopen fs p.filepath) := by
  unfold scan_begin fopen ScanBeginOut.state
  by_cases h : p.filepath = "" ∨ p.filepath = "-"
  · simp [h]
  · by_cases ho : fs.openable p.filepath
    · simp [h, ho, fopen]
    · simp [h, ho, fopen]

/-- C9: a freshly constructed `VCDFileParser` has `start_time` equal to
the most negative representable `VCDTime` and `end_time` equal to the most
positive one, so the default retention window contains every representable
timestamp and no timestamp is eligible for exclusion. -/
theorem init_time_window_universal :
    VCDFileParser.init.start_time = -vcdTimeMax ∧
    VCDFileParser.init.end_time = vcdTimeMax ∧
    ∀ t : VCDTime, t.representable →
      eligibleForExclusion VCDFileParser.init t = false := by
  refine ⟨rfl, rfl, ?_⟩
  intro t ht
  obtain ⟨h1, h2⟩ := ht
  simp only [eligibleForExclusion, VCDFileParser.init, Bool.or_eq_false_iff,
    decide_eq_false_iff_not, not_lt]
  exact ⟨h1, h2⟩

/-- Witness for C9 at the concrete timestamp 42. -/
theorem init_time_window_universal_witness :
    VCDTime.representable 42 ∧
    eligibleForExclusion VCDFileParser.init 42 = false :=
  ⟨by decide, init_time_window_universal.2.2 42 (by decide)⟩

/-- C10: when the session's input source is standard input, `scan_end`
emits no `fclose` at all — stdin is left open — while still nulling the
`input_file` member and leaving the scanner destroyed. -/
theorem scan_end_stdin_not_closed (p : VCDFileParser)
    (h : p.input_file = some FileHandle.stdin) :
    (scan_end p).1.input_file = none ∧
    (scan_end p).1.scanner = none ∧
    ∀ hdl : FileHandle, Event.fclose hdl ∉ (scan_end p).2 := by
  unfold scan_end
  rw [h]
  cases hs : p.scanner with
  | none => simp
  | some sc => simp

/-- Witness for C10 on a concrete session whose input source is stdin. -/
theorem scan_end_stdin_not_closed_witness :
    ({ VCDFileParser.init with
        input_file := some FileHandle.stdin } : VCDFileParser).input_file
      = some FileHandle.stdin ∧
    (scan_end { VCDFileParser.init with
        input_file := some FileHandle.stdin }).1.input_file = none :=
  ⟨rfl,
   (scan_end_stdin_not_closed
      { VCDFileParser.init with input_file := some FileHandle.stdin } rfl).1⟩

/-- C3 counterexample: on the I/O-failure path the claim fails — the
process exits from inside `scan_begin`, the call never returns an outcome
to the caller (`retval` stays `none`), and the freshly initialized scanner
is not destroyed. -/
theorem parse_file_io_failure_no_release :
    (parse_file grammarAccepts fsNoFiles SessionRun.fresh "missing.vcd").retval
        = none ∧
    (parse_file grammarAccepts fsNoFiles SessionRun.fresh "missing.vcd").exitCode
        = some 1 ∧
    (parse_file grammarAccepts fsNoFiles SessionRun.fresh "missing.vcd").parser.scanner
        ≠ none := by
  refine ⟨rfl, rfl, ?_⟩
  decide

/-- C3 (amended): on every exit path of `parse_file` that actually returns
to the caller — successful parse or grammar failure — the input source is
released (`input_file` nulled, and an `fclose` performed when the source
was a named file) and the scanner is destroyed before the call returns;
on I/O failure the process terminates inside `scan_begin` instead. -/
theorem parse_file_releases_on_return (g : GrammarEngine) (fs : FileSystem)
    (path : String) (p : VCDFileParser)
    (hret : (parse_file g fs ⟨p, Heap.empty, [], none, none, none⟩ path).exitCode
              = none) :
    (parse_file g fs ⟨p, Heap.empty, [], none, none, none⟩ path).parser.input_file
        = none ∧
    (parse_file g fs ⟨p, Heap.empty, [], none, none, none⟩ path).parser.scanner
        = none ∧
    (¬(path = "" ∨ path = "-") →
      Event.fclose (FileHandle.named path)
        ∈ (parse_file g fs ⟨p, Heap.empty, [], none, none, none⟩ path).events) := by
  by_cases hstd : path = "" ∨ path = "-"
  · rcases hstd with h | h <;> subst h <;>
      simp [parse_file, parseSteps, applySteps, callEntry, scanBeginStep, scan_begin,
        buildTrace, runGrammar, finishParse, scan_end, Heap.alloc, Heap.get, Heap.set,
        Heap.free, readSource] <;>
      split_ifs <;> simp
  · by_cases ho : fs.openable path = true
    · refine ⟨?_, ?_, ?_⟩ <;>
        simp [parse_file, parseSteps, applySteps, callEntry, scanBeginStep, scan_begin,
          buildTrace, runGrammar, finishParse, scan_end, Heap.alloc, Heap.get, Heap.set,
          Heap.free, readSource, fopen, hstd, ho] <;>
        split_ifs <;> simp
    · exfalso
      simp [parse_file, parseSteps, applySteps, callEntry, scanBeginStep, scan_begin,
        buildTrace, runGrammar, finishParse, scan_end, fopen, hstd, ho] at hret

/-- Witness for the amended C3 on a concrete returning run. -/
theorem parse_file_releases_on_return_witness :
    (parse_file grammarAccepts fsAllFiles
        ⟨VCDFileParser.init, Heap.empty, [], none, none, none⟩ "w.vcd").exitCode
      = none ∧
    Event.fclose (FileHandle.named "w.vcd")
      ∈ (parse_file grammarAccepts fsAllFiles
          ⟨VCDFileParser.init, Heap.empty, [], none, none, none⟩ "w.vcd").events :=
  ⟨rfl,
   (parse_file_releases_on_return grammarAccepts fsAllFiles "w.vcd"
      VCDFileParser.init rfl).2.2 (by decide)⟩

/-- C4: whenever the grammar engine rejects the input (nonzero result),
`parse_file` returns the null failure indicator, and the partially built
trace has been destroyed: its allocation is freed and no longer live.  No
partial trace is ever handed to the caller as a result. -/
theorem parse_file_grammar_failure_frees_trace (g : GrammarEngine)
    (fs : FileSystem) (path : String) (p : VCDFileParser)
    (hopen : (path = "" ∨ path = "-") ∨ fs.openable path = true)
    (hfail : (g (sourceOf fs path)).code ≠ 0) :
    (parse_file g fs ⟨p, Heap.empty, [], none, none, none⟩ path).retval
        = some none ∧
    (parse_file g fs ⟨p, Heap.empty, [], none, none, none⟩ path).heap.get 0
        = none ∧
    0 ∈ (parse_file g fs ⟨p, Heap.empty, [], none, none, none⟩ path).heap.freed := by
  by_cases hstd : path = "" ∨ path = "-"
  · rcases hstd with h | h <;> subst h <;>
      simp [sourceOf] at hfail <;>
      simp [parse_file, parseSteps, applySteps, callEntry, scanBeginStep, scan_begin,
        buildTrace, runGrammar, finishParse, scan_end, Heap.alloc, Heap.get, Heap.set,
        Heap.free, Heap.empty, readSource, hfail]
  · have ho : fs.openable path = true := by
      rcases hopen with h | h
      · exact absurd h hstd
      · exact h
    simp [sourceOf, hstd] at hfail
    simp [parse_file, parseSteps, applySteps, callEntry, scanBeginStep, scan_begin,
      buildTrace, runGrammar, finishParse, scan_end, Heap.alloc, Heap.get, Heap.set,
      Heap.free, Heap.empty, readSource, fopen, hstd, ho, hfail]

/-- Witness for C4 on a concrete rejected input. -/
theorem parse_file_grammar_failure_frees_trace_witness :
    (grammarRejects (sourceOf fsAllFiles "w.vcd")).code ≠ 0 ∧
    (parse_file grammarRejects fsAllFiles
        ⟨VCDFileParser.init, Heap.empty, [], none, none, none⟩ "w.vcd").retval
      = some none :=
  ⟨by decide,
   (parse_file_grammar_failure_frees_trace grammarRejects fsAllFiles "w.vcd"
      VCDFileParser.init (Or.inr (by decide)) (by decide)).1⟩

/-- C8: on every successful parse, `parse_file` returns the trace pointer
to the caller, the session's own `fh` member has been nulled before the
return, and the returned trace is still live on the heap (ownership now
rests with the caller alone). -/
theorem parse_file_success_transfers_ownership (g : GrammarEngine)
    (fs : FileSystem) (path : String) (p : VCDFileParser)
    (hopen : (path = "" ∨ path = "-") ∨ fs.openable path = true)
    (hsucc : (g (sourceOf fs path)).code = 0) :
    (parse_file g fs ⟨p, Heap.empty, [], none, none, none⟩ path).retval
        = some (some 0) ∧
    (parse_file g fs ⟨p, Heap.empty, [], none, none, none⟩ path).parser.fh
        = none ∧
    (parse_file g fs ⟨p, Heap.empty, [], none, none, none⟩ path).heap.get 0
        = some ⟨some ⟨"", VCDScopeType.vcd_scope_root⟩,
                [⟨"", VCDScopeType.vcd_scope_root⟩],
                (g (sourceOf fs path)).content⟩ := by
  by_cases hstd : path = "" ∨ path = "-"
  · rcases hstd with h | h <;> subst h <;>
      simp [sourceOf] at hsucc <;>
      simp [parse_file, parseSteps, applySteps, callEntry, scanBeginStep, scan_begin,
        buildTrace, runGrammar, finishParse, scan_end, Heap.alloc, Heap.get, Heap.set,
        Heap.free, Heap.empty, readSource, sourceOf, hsucc]
  · have ho : fs.openable path = true := by
      rcases hopen with h | h
      · exact absurd h hstd
      · exact h
    simp [sourceOf, hstd] at hsucc
    simp [parse_file, parseSteps, applySteps, callEntry, scanBeginStep, scan_begin,
      buildTrace, runGrammar, finishParse, scan_end, Heap.alloc, Heap.get, Heap.set,
      Heap.free, Heap.empty, readSource, sourceOf, fopen, hstd, ho, hsucc]

/-- Witness for C8 on a concrete accepted input. -/
theorem parse_file_success_transfers_ownership_witness :
    (grammarAccepts (sourceOf fsAllFiles "w.vcd")).code = 0 ∧
    (parse_file grammarAccepts fsAllFiles
        ⟨VCDFileParser.init, Heap.empty, [], none, none, none⟩ "w.vcd").parser.fh
      = none :=
  ⟨by decide,
   (parse_file_success_transfers_ownership grammarAccepts fsAllFiles "w.vcd"
      VCDFileParser.init (Or.inr (by decide)) (by decide)).2.1⟩

/-- Entering a call commutes with erasing the toggle-influenced parts. -/
theorem callEntry_erase (path : String) (r : SessionRun) :
    callEntry path (runErase r) = runErase (callEntry path r) := by
  unfold callEntry runErase parserErase
  cases hx : r.exitCode <;> simp [hx]

/-- `scan_begin` commutes with erasing the toggle-influenced parts: the
`trace_scanning` toggle flows only into the scanner's debug flag. -/
theorem scanBeginStep_erase (fs : FileSystem) (r : SessionRun) :
    scanBeginStep fs (runErase r) = runErase (scanBeginStep fs r) := by
  unfold scanBeginStep runErase parserErase scan_begin
  cases hx : r.exitCode with
  | some c => simp [hx]
  | none =>
    simp only [hx]
    by_cases hstd : r.parser.filepath = "" ∨ r.parser.filepath = "-"
    · simp [hstd, scannerErase]
    · cases hf : fopen fs r.parser.filepath <;> simp [hstd, hf, scannerErase]

/-- Trace construction never reads the toggles. -/
theorem buildTrace_erase (r : SessionRun) :
    buildTrace (runErase r) = runErase (buildTrace r) := by
  unfold buildTrace runErase parserErase
  cases hx : r.exitCode <;> simp [hx, Heap.alloc]

/-- The grammar engine run never reads the toggles. -/
theorem runGrammar_erase (g : GrammarEngine) (fs : FileSystem) (r : SessionRun) :
    runGrammar g fs (runErase r) = runErase (runGrammar g fs r) := by
  unfold runGrammar runErase parserErase
  cases hx : r.exitCode with
  | some c => simp [hx]
  | none =>
    simp only [hx]
    cases hfh : r.parser.fh <;> cases hin : r.parser.input_file <;>
      simp [hfh, hin, hx]

/-- The return block never reads the toggles. -/
theorem finishParse_erase (r : SessionRun) :
    finishParse (runErase r) = runErase (finishParse r) := by
  unfold finishParse runErase parserErase scan_end
  cases hx : r.exitCode with
  | some c => simp [hx]
  | none =>
    simp only [hx]
    cases hin : r.parser.input_file <;> cases hsc : r.parser.scanner <;>
      cases hlc : r.lastCode <;> cases hfh : r.parser.fh <;>
      simp [hin, hsc, hlc, hfh, hx] <;> split_ifs <;> simp

/-- A whole `parse_file` call commutes with erasing the toggle-influenced
parts of the run state. -/
theorem parse_file_erase (g : GrammarEngine) (fs : FileSystem)
    (r : SessionRun) (path : String) :
    parse_file g fs (runErase r) path = runErase (parse_file g fs r path) := by
  simp [parse_file, parseSteps, applySteps, callEntry_erase, scanBeginStep_erase,
    buildTrace_erase, runGrammar_erase, finishParse_erase]

/-- C6: the two debug toggles never influence parse results — for every
input, heap, and prior state, a `parse_file` call with any toggle setting
returns the same value, the same exit behaviour, the same heap (hence the
same trace), and the same diagnostics as the call with both toggles off. -/
theorem parse_file_toggles_result_independent (g : GrammarEngine)
    (fs : FileSystem) (path : String) (a b : Bool) (p : VCDFileParser)
    (hp : Heap) (ev : List Event) (ec : Option Nat) (lc : Option Int)
    (rv : Option (Option Nat)) :
    (parse_file g fs ⟨withToggles p a b, hp, ev, ec, lc, rv⟩ path).retval
        = (parse_file g fs ⟨withToggles p false false, hp, ev, ec, lc, rv⟩ path).retval ∧
    (parse_file g fs ⟨withToggles p a b, hp, ev, ec, lc, rv⟩ path).exitCode
        = (parse_file g fs ⟨withToggles p false false, hp, ev, ec, lc, rv⟩ path).exitCode ∧
    (parse_file g fs ⟨withToggles p a b, hp, ev, ec, lc, rv⟩ path).heap
        = (parse_file g fs ⟨withToggles p false false, hp, ev, ec, lc, rv⟩ path).heap ∧
    (parse_file g fs ⟨withToggles p a b, hp, ev, ec, lc, rv⟩ path).events
        = (parse_file g fs ⟨withToggles p false false, hp, ev, ec, lc, rv⟩ path).events := by
  have h1 : runErase ⟨withToggles p a b, hp, ev, ec, lc, rv⟩
      = runErase ⟨withToggles p false false, hp, ev, ec, lc, rv⟩ := by
    simp [runErase, parserErase, withToggles]
  have key : runErase (parse_file g fs ⟨withToggles p a b, hp, ev, ec, lc, rv⟩ path)
      = runErase (parse_file g fs ⟨withToggles p false false, hp, ev, ec, lc, rv⟩ path) := by
    rw [← parse_file_erase, ← parse_file_erase, h1]
  refine ⟨?_, ?_, ?_, ?_⟩
  · simpa [runErase] using congrArg SessionRun.retval key
  · simpa [runErase] using congrArg SessionRun.exitCode key
  · simpa [runErase] using congrArg SessionRun.heap key
  · simpa [runErase] using congrArg SessionRun.events key

/-- In an interleaved execution, each thread's component of the world
evolves exactly by that thread's own scheduled steps: no step of another
thread touches it. -/
theorem runWorld_component {S : Type} {n : Nat} (sch : List (Fin n))
    (progs : Fin n → List (S → S)) (w : Fin n → S) (i : Fin n) :
    runWorld sch progs w i =
      ((progs i).take (sch.count i)).foldl (fun a f => f a) (w i) := by
  induction sch generalizing progs w with
  | nil => simp [runWorld]
  | cons j sch ih =>
    by_cases hji : j = i
    · subst hji
      cases hp : progs j with
      | nil =>
        rw [runWorld]
        simp only [hp]
        rw [ih]
        simp [hp]
      | cons f rest =>
        rw [runWorld]
        simp only [hp]
        rw [ih]
        simp [Function.update_same, List.count_cons, hp, List.take_succ_cons]
    · cases hp : progs j with
      | nil =>
        rw [runWorld]
        simp only [hp]
        rw [ih]
        simp [List.count_cons, hji, Ne.symm hji]
      | cons f rest =>
        rw [runWorld]
        simp only [hp]
        rw [ih]
        rw [Function.update_noteq (Ne.symm hji), Function.update_noteq (Ne.symm hji)]
        simp [List.count_cons, hji, Ne.symm hji]

/-- C5: sessions share no mutable state — in any interleaved concurrent
execution of `n` sessions, each running the five blocks of `parse_file` on
its own file, every session ends in exactly the state (result value, trace
heap, diagnostics, session object) it would reach parsing its file alone,
single-threaded. -/
theorem parse_file_concurrent_isolation {n : Nat} (g : GrammarEngine)
    (fsys : Fin n → FileSystem) (paths : Fin n → String)
    (inits : Fin n → SessionRun) (sch : List (Fin n))
    (hsch : ∀ i : Fin n, 5 ≤ sch.count i) (i : Fin n) :
    runWorld sch (fun k => parseSteps g (fsys k) (paths k)) inits i =
      parse_file g (fsys i) (inits i) (paths i) := by
  rw [runWorld_component]
  rw [List.take_of_length_le (by exact hsch i)]
  rfl

/-- Witness for C5: two sessions on two files under a strictly
alternating schedule; the first session's outcome equals its solo run. -/
theorem parse_file_concurrent_isolation_witness :
    (∀ i : Fin 2, 5 ≤ ([0, 1, 0, 1, 0, 1, 0, 1, 0, 1] : List (Fin 2)).count i) ∧
    runWorld ([0, 1, 0, 1, 0, 1, 0, 1, 0, 1] : List (Fin 2))
        (fun k => parseSteps grammarAccepts fsAllFiles
          (if k = 0 then "a.vcd" else "b.vcd"))
        (fun _ => SessionRun.fresh) 0 =
      parse_file grammarAccepts fsAllFiles SessionRun.fresh "a.vcd" :=
  ⟨by decide,
   by
     have h := parse_file_concurrent_isolation grammarAccepts (fun _ => fsAllFiles)
       (fun k => if k = 0 then "a.vcd" else "b.vcd") (fun _ => SessionRun.fresh)
       ([0, 1, 0, 1, 0, 1, 0, 1, 0, 1] : List (Fin 2)) (by decide) 0
     simpa using h⟩

end VCD
